import Mathlib

/-!
# Verification of the GST reconciliation core (`src/gst_reconciliation_app.py`)

Shallow embedding of the reconciliation pipeline of the Streamlit app:
two input tables (GSTR2B and Tally) of invoice rows are normalized, match
keys are derived, and the rows are partitioned into five output sheets
(Matched Invoices, GSTR2B Only, Tally Only, Value Mismatched, Not Matching).

Modelling decisions:
* a pandas row after normalization is a `Record`; numeric cells are exact
  rationals `ℚ` (the Python floats hold decimal amounts; all the pipeline
  does with them is subtract and compare against the 0.01 tolerance);
* the `pd.merge(..., how='inner')` calls are `innerMerge`: for each left
  row, in order, all right rows with an equal key (full cross product per
  key, preserving left order — pandas' documented inner-join order);
* the mutable `gstr2b_processed_indices` / `tally_processed_indices` sets
  are snapshots after each sheet's loop (the source computes each sheet's
  candidate set before its loop, so additions during a loop only affect
  later sheets);
* `astype(str)` on a normalized numeric column is `ratStr`, an injective
  textual rendering of the value (Python renders the decimal digits of the
  float; the model renders sign, numerator and denominator — both are
  injective, which is all that key equality depends on);
* `astype(str)` on the normalized `Invoice Date` column renders a parsed
  date as its `DD-MM-YYYY` string and the `NaT` sentinel of an unparseable
  date as the string `"nan"` (exactly what pandas produces after
  `.dt.strftime` and `astype(str)`); the raw column value used by Sheet 5's
  date comparison is `Option String`, where `none` is the `NaN` sentinel and
  the Python comparison `NaN != x` is true for every `x`, including `NaN`;
* the tolerance test `abs(a - b) > 0.01` is `tol_lt_absdiff`, written on
  numerators/denominators so that the kernel can evaluate it; the lemma
  `tol_lt_absdiff_iff` identifies it with `1/100 < |a - b|`.
-/

namespace GSTReco

/-! ## Decimal rendering of naturals and rationals (model of `astype(str)`) -/

/-- Little-endian base-10 digits of `n`, with explicit structural fuel. -/
def digitsRev : Nat → Nat → List Nat
  | 0, _ => []
  | f + 1, n => if n = 0 then [] else n % 10 :: digitsRev f (n / 10)

/-- Little-endian base-10 digits of `n` (empty for `0`). -/
def natDigits (n : Nat) : List Nat := digitsRev n n

/-- The character of a decimal digit. -/
def digitChar10 (d : Nat) : Char := Char.ofNat (48 + d)

/-- Decimal rendering of a natural number. -/
def natStr (n : Nat) : String :=
  if n = 0 then "0" else String.mk ((natDigits n).reverse.map digitChar10)

/-- Model of `astype(str)` on a normalized numeric cell: an injective
textual rendering of the rational value (sign, numerator, denominator). -/
def ratStr (q : ℚ) : String :=
  (if q.num < 0 then "-" else "") ++ natStr q.num.natAbs ++ "/" ++ natStr q.den

/-! ## Records -/

/-- One row of either input table after the normalization block
(lines 134–148 of the source): strings trimmed/uppercased, the date parsed
day-first and reformatted (or the unparseable sentinel `none`), numeric
cells coerced with fallback to 0. -/
structure Record where
  sno : Nat
  gstin : String
  trade_name : String
  invoice_number : String
  invoice_date : Option String
  invoice_value : ℚ
  taxable_value : ℚ
  igst : ℚ
  cgst : ℚ
  sgst : ℚ
deriving DecidableEq, Repr

/-! ## Numeric normalization (source lines 137–142) -/

/-- Model of `str.replace(r'[^\d.]+', '', regex=True)`: keep only digits and dots. -/
def strip_numeric_chars (s : String) : String :=
  String.mk (s.data.filter fun c => c.isDigit || c == '.')

/-- Value of a list of decimal digit characters. -/
def digitsVal (cs : List Char) : Nat :=
  cs.foldl (fun acc c => 10 * acc + (c.toNat - 48)) 0

/-- Model of `pd.to_numeric(..., errors='coerce')` on a stripped cell: a
digits-and-dots string parses as a decimal when it has at most one dot and
at least one digit; anything else (including the empty string) is `none`. -/
def parseDecimal (s : String) : Option ℚ :=
  match s.data.splitOn '.' with
  | [ip] =>
      if ip.isEmpty || !ip.all Char.isDigit then none
      else some (mkRat (digitsVal ip) 1)
  | [ip, fp] =>
      if (ip.isEmpty && fp.isEmpty) || !ip.all Char.isDigit || !fp.all Char.isDigit then none
      else some (mkRat (digitsVal ip * 10 ^ fp.length + digitsVal fp) (10 ^ fp.length))
  | _ => none

/-- The full normalization of an `Invoice Value` / `Taxable Value` cell:
strip, coerce, `.fillna(0)`. -/
def to_numeric_filled (s : String) : ℚ :=
  (parseDecimal (strip_numeric_chars s)).getD 0

/-! ## Match keys (source lines 151–163) -/

/-- Model of `.str.replace('-', '')` on the date string. -/
def stripDashes (s : String) : String :=
  String.mk (s.data.filter fun c => c != '-')

/-- Model of `astype(str).str.replace('-', '')` on the normalized date column:
a parsed date renders as its 8 digits, the `NaT` sentinel as `"nan"`. -/
def dateKeyStr : Option String → String
  | some d => stripDashes d
  | none => "nan"

/-- The key `match_key_full`: Invoice Number ++ GSTIN ++ date (no dashes) ++ str(Taxable Value). -/
def match_key_full (r : Record) : String :=
  r.invoice_number ++ r.gstin ++ dateKeyStr r.invoice_date ++ ratStr r.taxable_value

/-- The key `match_key_value`: Invoice Number ++ GSTIN ++ date (no dashes). -/
def match_key_value (r : Record) : String :=
  r.invoice_number ++ r.gstin ++ dateKeyStr r.invoice_date

/-! ## The tolerance check -/

/-- The test `abs(a - b) > 0.01`, written on numerators and denominators so the
kernel can evaluate it: `a.den * b.den < 100 * |a.num * b.den - b.num * a.den|`. -/
def tol_lt_absdiff (a b : ℚ) : Bool :=
  a.den * b.den < 100 * (a.num * (b.den : Int) - b.num * (a.den : Int)).natAbs

/-! ## The tiered pipeline (source lines 168–332) -/

/-- Model of `pd.merge(left, right, on=key, how='inner')`: every left row, in order,
paired with every right row of equal key. -/
def innerMerge (left right : List Record) (key : Record → String) : List (Record × Record) :=
  left.flatMap fun l => (right.filter fun r => key l == key r).map fun r => (l, r)

/-- Sheet 1 (Matched Invoices): merge on the full match key; every merged
pair is emitted. -/
def merged_full (g t : List Record) : List (Record × Record) :=
  innerMerge g t match_key_full

/-- The set `gstr2b_processed_indices` after the Sheet 1 loop. -/
def gstr2b_processed_1 (g t : List Record) : List Nat :=
  (merged_full g t).map fun p => p.1.sno

/-- The set `tally_processed_indices` after the Sheet 1 loop. -/
def tally_processed_1 (g t : List Record) : List Nat :=
  (merged_full g t).map fun p => p.2.sno

/-- The frame `gstr2b_df[~gstr2b_df['S.No'].isin(gstr2b_processed_indices)]` before Sheet 4. -/
def potential_sheet4_gstr (g t : List Record) : List Record :=
  g.filter fun r => !((gstr2b_processed_1 g t).contains r.sno)

def potential_sheet4_tally (g t : List Record) : List Record :=
  t.filter fun r => !((tally_processed_1 g t).contains r.sno)

/-- The Sheet 4 candidate merge, on `match_key_value`. -/
def merged_value (g t : List Record) : List (Record × Record) :=
  innerMerge (potential_sheet4_gstr g t) (potential_sheet4_tally g t) match_key_value

/-- Sheet 4 (Value Mismatched): keep a candidate pair only when
`abs(Taxable Value_GSTR2B - Taxable Value_Tally) > 0.01`. -/
def sheet4_data (g t : List Record) : List (Record × Record) :=
  (merged_value g t).filter fun p => tol_lt_absdiff p.1.taxable_value p.2.taxable_value

/-- The set `gstr2b_processed_indices` after the Sheet 4 loop. -/
def gstr2b_processed_4 (g t : List Record) : List Nat :=
  gstr2b_processed_1 g t ++ (sheet4_data g t).map fun p => p.1.sno

/-- The set `tally_processed_indices` after the Sheet 4 loop. -/
def tally_processed_4 (g t : List Record) : List Nat :=
  tally_processed_1 g t ++ (sheet4_data g t).map fun p => p.2.sno

/-- The frame `gstr2b_remaining` before Sheet 5. -/
def gstr2b_remaining (g t : List Record) : List Record :=
  g.filter fun r => !((gstr2b_processed_4 g t).contains r.sno)

def tally_remaining (g t : List Record) : List Record :=
  t.filter fun r => !((tally_processed_4 g t).contains r.sno)

/-- The Sheet 5 candidate merge, on `Invoice Number` alone. -/
def merged_invoice_only (g t : List Record) : List (Record × Record) :=
  innerMerge (gstr2b_remaining g t) (tally_remaining g t) fun r => r.invoice_number

/-- The Python `!=` on two normalized date cells: two strings compare as
strings; the `NaN` sentinel compares unequal to everything, itself included. -/
def date_ne : Option String → Option String → Bool
  | some a, some b => a != b
  | _, _ => true

/-- Sheet 5 predicate: `row['GSTIN of Supplier_GSTR2B_S5'] != row['GSTIN of Supplier_Tally_S5']`. -/
def is_gstin_mismatch (p : Record × Record) : Bool :=
  p.1.gstin != p.2.gstin

/-- Sheet 5 predicate: `row['Invoice Date_GSTR2B_S5'] != row['Invoice Date_Tally_S5']`. -/
def is_date_mismatch (p : Record × Record) : Bool :=
  date_ne p.1.invoice_date p.2.invoice_date

/-- Sheet 5 predicate: `abs(Taxable Value_GSTR2B_S5 - Taxable Value_Tally_S5) > 0.01`. -/
def is_taxable_value_mismatch (p : Record × Record) : Bool :=
  tol_lt_absdiff p.1.taxable_value p.2.taxable_value

/-- The Sheet 5 emission condition: any of the three mismatches. -/
def sheet5_emit (p : Record × Record) : Bool :=
  is_gstin_mismatch p || is_date_mismatch p || is_taxable_value_mismatch p

/-- The `mismatch_reason_parts` construction: the three labels, in the
source's fixed order, joined with `", "`. -/
def mismatch_reason (p : Record × Record) : String :=
  String.intercalate ", "
    ((if is_gstin_mismatch p then ["GSTIN mismatch"] else []) ++
     (if is_date_mismatch p then ["Date mismatch"] else []) ++
     (if is_taxable_value_mismatch p then ["Taxable Value mismatch"] else []))

/-- The rows appended to `sheet5_records` (before deduplication). -/
def sheet5_records (g t : List Record) : List (Record × Record) :=
  (merged_invoice_only g t).filter sheet5_emit

/-- The `(GSTR2B S.No, Tally S.No)` pair of a Sheet 5 row. -/
def pairSno (p : Record × Record) : Nat × Nat := (p.1.sno, p.2.sno)

/-- Model of `drop_duplicates(subset=['GSTR2B S.No', 'Tally S.No'], keep='first')`:
drop a row whose S.No pair was already seen. -/
def drop_duplicate_pairs : List (Record × Record) → List (Nat × Nat) → List (Record × Record)
  | [], _ => []
  | p :: ps, seen =>
    if seen.contains (pairSno p) then drop_duplicate_pairs ps seen
    else p :: drop_duplicate_pairs ps (pairSno p :: seen)

/-- Sheet 5 (Not Matching) after deduplication. -/
def sheet5_final (g t : List Record) : List (Record × Record) :=
  drop_duplicate_pairs (sheet5_records g t) []

/-- The set `gstr2b_processed_indices` after the Sheet 5 loop (the loop adds every
emitted row's S.No, including rows later dropped as duplicate pairs). -/
def gstr2b_processed_5 (g t : List Record) : List Nat :=
  gstr2b_processed_4 g t ++ (sheet5_records g t).map fun p => p.1.sno

/-- The set `tally_processed_indices` after the Sheet 5 loop. -/
def tally_processed_5 (g t : List Record) : List Nat :=
  tally_processed_4 g t ++ (sheet5_records g t).map fun p => p.2.sno

/-- Sheet 2 (GSTR2B Only): GSTR2B records not in Sheets 1, 4 or 5. -/
def sheet2 (g t : List Record) : List Record :=
  g.filter fun r => !((gstr2b_processed_5 g t).contains r.sno)

/-- Sheet 3 (Tally Only): Tally records not in Sheets 1, 4 or 5. -/
def sheet3 (g t : List Record) : List Record :=
  t.filter fun r => !((tally_processed_5 g t).contains r.sno)

/-! ## Column validation (source lines 116–132) -/

/-- Model of `df.columns.str.strip()`: trim surrounding whitespace from a column
name (model of pandas string strip, written on the character list). -/
def str_strip (s : String) : String :=
  String.mk ((s.data.dropWhile Char.isWhitespace).reverse.dropWhile Char.isWhitespace).reverse

/-- The ten required columns. -/
def required_columns : List String :=
  ["S.No", "GSTIN of Supplier", "Trade/Legal Name", "Invoice Number",
   "Invoice Date", "Invoice Value", "Taxable Value", "IGST", "CGST", "SGST"]

/-- The validation loop: for each required column, in order, check the
GSTR2B file first, then the Tally file; stop at the first missing column,
reporting the file name and the column. -/
def find_missing_column (cols gcols tcols : List String) : Option (String × String) :=
  match cols with
  | [] => none
  | c :: rest =>
    if c ∉ gcols then some ("GSTR2B", c)
    else if c ∉ tcols then some ("Tally", c)
    else find_missing_column rest gcols tcols

/-- The five output tables of a successful run. -/
structure ReconOutput where
  matched : List (Record × Record)
  gstr_only : List Record
  tally_only : List Record
  value_mismatched : List (Record × Record)
  not_matching : List (Record × Record)
deriving Repr

/-- The whole run: trim the column names, validate them (abort with the
file name and the missing column on failure), then produce the five
tables. -/
def runRecon (gcols tcols : List String) (g t : List Record) :
    Except (String × String) ReconOutput :=
  match find_missing_column required_columns (gcols.map str_strip) (tcols.map str_strip) with
  | some e => .error e
  | none => .ok ⟨merged_full g t, sheet2 g t, sheet3 g t, sheet4_data g t, sheet5_final g t⟩

/-! ## Concrete inputs used by counterexamples and witnesses -/

/-- A pair identical in invoice number, GSTIN and date whose taxable
values differ by exactly 0.01 (1000 vs 1000.01). -/
def exG2c : Record := ⟨1, "G1", "A", "INV1", some "01-01-2024", 1000, 1000, 0, 0, 0⟩
def exT2c : Record := ⟨2, "G1", "A", "INV1", some "01-01-2024", 1000, mkRat 100001 100, 0, 0, 0⟩

/-- Records whose dates are both the unparseable sentinel and that agree
in everything else (taxable 50 on both sides). -/
def exG3s : Record := ⟨31, "G1", "A", "INV3", none, 50, 50, 0, 0, 0⟩
def exT3s : Record := ⟨32, "G1", "A", "INV3", none, 50, 50, 0, 0, 0⟩

/-- A Sheet 5 duplicate-pair scenario: one GSTR2B row against two Tally
rows that share an S.No (and differ only in trade name). -/
def exG6 : Record := ⟨41, "G1", "A", "INV6", some "01-01-2024", 10, 10, 0, 0, 0⟩
def exT6a : Record := ⟨42, "G2", "X", "INV6", some "01-01-2024", 10, 10, 0, 0, 0⟩
def exT6b : Record := ⟨42, "G2", "Y", "INV6", some "01-01-2024", 10, 10, 0, 0, 0⟩

/-- A pair agreeing on the partial key with a nonzero taxable difference
inside the tolerance (100 vs 100.005), dates parseable. -/
def exG10 : Record := ⟨1, "G1", "A", "INV1", some "01-01-2024", 100, 100, 0, 0, 0⟩
def exT10 : Record := ⟨2, "G1", "A", "INV1", some "01-01-2024", 100, mkRat 100005 1000, 0, 0, 0⟩

/-- The same inside-tolerance difference, but with sentinel dates on both
sides (the partial keys still agree, through "nan"). -/
def exGn : Record := ⟨5, "G1", "A", "INV7", none, 100, 100, 0, 0, 0⟩
def exTn : Record := ⟨6, "G1", "A", "INV7", none, 100, mkRat 100005 1000, 0, 0, 0⟩

/-! ## Concrete records of the spec example scenarios -/

/-- Scenario 1 of the spec: identical single rows fully match. -/
def exG1 : Record := ⟨1, "GSTIN1", "ACME", "INV001", some "01-01-2024", 1000, 1000, 0, 0, 0⟩
def exT1 : Record := ⟨1, "GSTIN1", "ACME", "INV001", some "01-01-2024", 1000, 1000, 0, 0, 0⟩


/-- Scenario 2: same identity, taxable 1000 vs 1050 → Sheet 4. -/
def exT2 : Record := ⟨1, "GSTIN1", "ACME", "INV001", some "01-01-2024", 1000, 1050, 0, 0, 0⟩


/-- Scenario 3: same invoice and date, different GSTIN → Sheet 5, "GSTIN mismatch". -/
def exT3 : Record := ⟨1, "GSTIN2", "ACME", "INV001", some "01-01-2024", 1000, 1000, 0, 0, 0⟩

/-! ## Sanity examples: the spec example scenarios evaluate as described -/

example : merged_full [exG1] [exT1] = [(exG1, exT1)] := by decide
example : sheet2 [exG1] [exT1] = [] ∧ sheet3 [exG1] [exT1] = [] := by decide
example : merged_full [exG1] [exT2] = [] := by decide
example : sheet4_data [exG1] [exT2] = [(exG1, exT2)] := by decide
example : sheet5_final [exG1] [exT3] = [(exG1, exT3)] := by decide
example : mismatch_reason (exG1, exT3) = "GSTIN mismatch" := by decide

/-! ## Helper lemmas: merge, filter and processed-set membership -/

theorem contains_iff {l : List Nat} {x : Nat} : l.contains x = true ↔ x ∈ l := by
  simp

theorem mem_innerMerge {l r : List Record} {k : Record → String} {p : Record × Record} :
    p ∈ innerMerge l r k ↔ p.1 ∈ l ∧ p.2 ∈ r ∧ k p.1 = k p.2 := by
  unfold innerMerge
  rw [List.mem_flatMap]
  constructor
  · rintro ⟨a, ha, hp⟩
    rw [List.mem_map] at hp
    obtain ⟨b, hb, rfl⟩ := hp
    rw [List.mem_filter] at hb
    exact ⟨ha, hb.1, by simpa using hb.2⟩
  · rintro ⟨h1, h2, h3⟩
    refine ⟨p.1, h1, ?_⟩
    rw [List.mem_map]
    refine ⟨p.2, ?_, rfl⟩
    rw [List.mem_filter]
    exact ⟨h2, by simpa using h3⟩

theorem mem_filter_proc {l : List Record} {proc : List Nat} {x : Record} :
    x ∈ l.filter (fun y => !(proc.contains y.sno)) ↔ x ∈ l ∧ x.sno ∉ proc := by
  rw [List.mem_filter]
  simp

/-- A Sheet 4 candidate's GSTR2B side survived the Sheet 1 filter. -/
theorem merged_value_fst_not_processed {g t : List Record} {p : Record × Record}
    (h : p ∈ merged_value g t) : p.1.sno ∉ gstr2b_processed_1 g t := by
  have h1 := (mem_innerMerge.1 h).1
  exact (mem_filter_proc.1 h1).2

theorem merged_value_snd_not_processed {g t : List Record} {p : Record × Record}
    (h : p ∈ merged_value g t) : p.2.sno ∉ tally_processed_1 g t := by
  have h1 := (mem_innerMerge.1 h).2.1
  exact (mem_filter_proc.1 h1).2

/-- A Sheet 5 candidate's GSTR2B side survived the Sheet 4 filter. -/
theorem merged_invoice_only_fst_not_processed {g t : List Record} {p : Record × Record}
    (h : p ∈ merged_invoice_only g t) : p.1.sno ∉ gstr2b_processed_4 g t := by
  have h1 := (mem_innerMerge.1 h).1
  exact (mem_filter_proc.1 h1).2

theorem merged_invoice_only_snd_not_processed {g t : List Record} {p : Record × Record}
    (h : p ∈ merged_invoice_only g t) : p.2.sno ∉ tally_processed_4 g t := by
  have h1 := (mem_innerMerge.1 h).2.1
  exact (mem_filter_proc.1 h1).2

theorem mem_gstr2b_processed_4 {g t : List Record} {x : Nat} :
    x ∈ gstr2b_processed_4 g t ↔
      x ∈ gstr2b_processed_1 g t ∨ x ∈ (sheet4_data g t).map (fun p => p.1.sno) := by
  unfold gstr2b_processed_4
  exact List.mem_append

theorem mem_tally_processed_4 {g t : List Record} {x : Nat} :
    x ∈ tally_processed_4 g t ↔
      x ∈ tally_processed_1 g t ∨ x ∈ (sheet4_data g t).map (fun p => p.2.sno) := by
  unfold tally_processed_4
  exact List.mem_append

theorem mem_gstr2b_processed_5 {g t : List Record} {x : Nat} :
    x ∈ gstr2b_processed_5 g t ↔
      x ∈ gstr2b_processed_4 g t ∨ x ∈ (sheet5_records g t).map (fun p => p.1.sno) := by
  unfold gstr2b_processed_5
  exact List.mem_append

theorem mem_tally_processed_5 {g t : List Record} {x : Nat} :
    x ∈ tally_processed_5 g t ↔
      x ∈ tally_processed_4 g t ∨ x ∈ (sheet5_records g t).map (fun p => p.2.sno) := by
  unfold tally_processed_5
  exact List.mem_append

/-- A GSTR2B S.No emitted in Sheet 4 was not emitted in Sheet 1. -/
theorem sheet4_fst_sno_not_sheet1 {g t : List Record} {x : Nat}
    (h : x ∈ (sheet4_data g t).map (fun p => p.1.sno)) : x ∉ gstr2b_processed_1 g t := by
  rw [List.mem_map] at h
  obtain ⟨p, hp, rfl⟩ := h
  exact merged_value_fst_not_processed (List.mem_of_mem_filter hp)

theorem sheet4_snd_sno_not_sheet1 {g t : List Record} {x : Nat}
    (h : x ∈ (sheet4_data g t).map (fun p => p.2.sno)) : x ∉ tally_processed_1 g t := by
  rw [List.mem_map] at h
  obtain ⟨p, hp, rfl⟩ := h
  exact merged_value_snd_not_processed (List.mem_of_mem_filter hp)

/-- A GSTR2B S.No emitted in Sheet 5 was not emitted in Sheets 1 or 4. -/
theorem sheet5_fst_sno_not_processed_4 {g t : List Record} {x : Nat}
    (h : x ∈ (sheet5_records g t).map (fun p => p.1.sno)) : x ∉ gstr2b_processed_4 g t := by
  rw [List.mem_map] at h
  obtain ⟨p, hp, rfl⟩ := h
  exact merged_invoice_only_fst_not_processed (List.mem_of_mem_filter hp)

theorem sheet5_snd_sno_not_processed_4 {g t : List Record} {x : Nat}
    (h : x ∈ (sheet5_records g t).map (fun p => p.2.sno)) : x ∉ tally_processed_4 g t := by
  rw [List.mem_map] at h
  obtain ⟨p, hp, rfl⟩ := h
  exact merged_invoice_only_snd_not_processed (List.mem_of_mem_filter hp)

/-! ## Helper lemmas: deduplication of Sheet 5 -/

theorem containsPair_iff {l : List (Nat × Nat)} {x : Nat × Nat} :
    l.contains x = true ↔ x ∈ l := by
  simp

theorem drop_duplicate_pairs_cons_seen {p : Record × Record} {ps : List (Record × Record)}
    {seen : List (Nat × Nat)} (hc : seen.contains (pairSno p) = true) :
    drop_duplicate_pairs (p :: ps) seen = drop_duplicate_pairs ps seen := by
  rw [drop_duplicate_pairs, if_pos hc]

theorem drop_duplicate_pairs_cons_new {p : Record × Record} {ps : List (Record × Record)}
    {seen : List (Nat × Nat)} (hc : seen.contains (pairSno p) = false) :
    drop_duplicate_pairs (p :: ps) seen =
      p :: drop_duplicate_pairs ps (pairSno p :: seen) := by
  rw [drop_duplicate_pairs, if_neg (by intro h; rw [h] at hc; cases hc)]

/-- Membership of an S.No pair in the deduplicated list: exactly the pairs
of the input that are not in `seen`. -/
theorem mem_pairSno_drop_duplicate_pairs :
    ∀ (l : List (Record × Record)) (seen : List (Nat × Nat)) (pr : Nat × Nat),
      pr ∈ (drop_duplicate_pairs l seen).map pairSno ↔ pr ∈ l.map pairSno ∧ pr ∉ seen := by
  intro l
  induction l with
  | nil => intro seen pr; simp [drop_duplicate_pairs]
  | cons p ps ih =>
    intro seen pr
    by_cases hc : seen.contains (pairSno p) = true
    · have hmem : pairSno p ∈ seen := containsPair_iff.1 hc
      rw [drop_duplicate_pairs_cons_seen hc, ih seen pr, List.map_cons, List.mem_cons]
      constructor
      · rintro ⟨h1, h2⟩
        exact ⟨Or.inr h1, h2⟩
      · rintro ⟨h1 | h1, h2⟩
        · exact absurd (h1 ▸ hmem) h2
        · exact ⟨h1, h2⟩
    · have hc2 : seen.contains (pairSno p) = false := by simpa using hc
      have hmem : pairSno p ∉ seen := fun h => hc (containsPair_iff.2 h)
      rw [drop_duplicate_pairs_cons_new hc2, List.map_cons, List.map_cons,
        List.mem_cons, List.mem_cons, ih (pairSno p :: seen) pr]
      constructor
      · rintro (rfl | ⟨h1, h2⟩)
        · exact ⟨Or.inl rfl, hmem⟩
        · exact ⟨Or.inr h1, fun h => h2 (List.mem_cons_of_mem _ h)⟩
      · rintro ⟨rfl | h1, h2⟩
        · exact Or.inl rfl
        · by_cases hpp : pr = pairSno p
          · exact Or.inl hpp
          · refine Or.inr ⟨h1, ?_⟩
            rw [List.mem_cons]
            rintro (h | h)
            · exact hpp h
            · exact h2 h

theorem drop_duplicate_pairs_sublist :
    ∀ (l : List (Record × Record)) (seen : List (Nat × Nat)),
      (drop_duplicate_pairs l seen).Sublist l := by
  intro l
  induction l with
  | nil => intro seen; exact List.Sublist.refl _
  | cons p ps ih =>
    intro seen
    by_cases hc : seen.contains (pairSno p) = true
    · rw [drop_duplicate_pairs_cons_seen hc]
      exact (ih seen).cons p
    · rw [drop_duplicate_pairs_cons_new (by simpa using hc)]
      exact (ih (pairSno p :: seen)).cons₂ p

/-- The deduplicated Sheet 5 never holds two rows with the same S.No pair. -/
theorem drop_duplicate_pairs_pairwise :
    ∀ (l : List (Record × Record)) (seen : List (Nat × Nat)),
      (drop_duplicate_pairs l seen).Pairwise (fun p q => pairSno p ≠ pairSno q) := by
  intro l
  induction l with
  | nil => intro seen; simp [drop_duplicate_pairs]
  | cons p ps ih =>
    intro seen
    by_cases hc : seen.contains (pairSno p) = true
    · rw [drop_duplicate_pairs_cons_seen hc]
      exact ih seen
    · rw [drop_duplicate_pairs_cons_new (by simpa using hc)]
      refine List.Pairwise.cons ?_ (ih (pairSno p :: seen))
      intro q hq
      have hmap : pairSno q ∈ (drop_duplicate_pairs ps (pairSno p :: seen)).map pairSno :=
        List.mem_map_of_mem pairSno hq
      have hnot := (mem_pairSno_drop_duplicate_pairs ps (pairSno p :: seen) (pairSno q)).1 hmap
      intro heq
      exact hnot.2 (heq ▸ List.mem_cons_self _ _)

/-- Deduplication keeps the first row of each S.No pair. -/
theorem drop_duplicate_pairs_keeps_first :
    ∀ (l : List (Record × Record)) (seen : List (Nat × Nat)) (p : Record × Record),
      p ∈ l → pairSno p ∉ seen →
      ∃ q, l.find? (fun q => pairSno q == pairSno p) = some q ∧
        q ∈ drop_duplicate_pairs l seen := by
  intro l
  induction l with
  | nil => intro seen p hp; exact absurd hp (List.not_mem_nil p)
  | cons x xs ih =>
    intro seen p hp hseen
    by_cases hx : pairSno x = pairSno p
    · refine ⟨x, ?_, ?_⟩
      · rw [List.find?_cons_of_pos _ (by simpa using hx)]
      · have hc : seen.contains (pairSno x) = false := by
          rw [← Bool.not_eq_true]
          intro hcon
          exact hseen (hx ▸ containsPair_iff.1 hcon)
        rw [drop_duplicate_pairs_cons_new hc]
        exact List.mem_cons_self _ _
    · have hpxs : p ∈ xs := by
        rcases List.mem_cons.1 hp with rfl | h
        · exact absurd rfl hx
        · exact h
      rw [List.find?_cons_of_neg _ (by simpa using hx)]
      by_cases hc : seen.contains (pairSno x) = true
      · rw [drop_duplicate_pairs_cons_seen hc]
        exact ih seen p hpxs hseen
      · rw [drop_duplicate_pairs_cons_new (by simpa using hc)]
        obtain ⟨q, hq1, hq2⟩ := ih (pairSno x :: seen) p hpxs (by
          rw [List.mem_cons]
          rintro (h | h)
          · exact hx h.symm
          · exact hseen h)
        exact ⟨q, hq1, List.mem_cons_of_mem _ hq2⟩

/-- The GSTR2B S.No values of the deduplicated Sheet 5 are those of the
raw Sheet 5 rows. -/
theorem sheet5_final_fst_snos {g t : List Record} {x : Nat} :
    x ∈ (sheet5_final g t).map (fun p => p.1.sno) ↔
      x ∈ (sheet5_records g t).map (fun p => p.1.sno) := by
  unfold sheet5_final
  constructor
  · intro h
    rw [List.mem_map] at h ⊢
    obtain ⟨p, hp, rfl⟩ := h
    exact ⟨p, (drop_duplicate_pairs_sublist _ _).mem hp, rfl⟩
  · intro h
    rw [List.mem_map] at h
    obtain ⟨p, hp, rfl⟩ := h
    have h2 : pairSno p ∈ (drop_duplicate_pairs (sheet5_records g t) []).map pairSno := by
      rw [mem_pairSno_drop_duplicate_pairs]
      exact ⟨List.mem_map_of_mem pairSno hp, List.not_mem_nil _⟩
    rw [List.mem_map] at h2
    obtain ⟨q, hq, hqe⟩ := h2
    rw [List.mem_map]
    refine ⟨q, hq, ?_⟩
    have : (pairSno q).1 = (pairSno p).1 := by rw [hqe]
    exact this

theorem sheet5_final_snd_snos {g t : List Record} {x : Nat} :
    x ∈ (sheet5_final g t).map (fun p => p.2.sno) ↔
      x ∈ (sheet5_records g t).map (fun p => p.2.sno) := by
  unfold sheet5_final
  constructor
  · intro h
    rw [List.mem_map] at h ⊢
    obtain ⟨p, hp, rfl⟩ := h
    exact ⟨p, (drop_duplicate_pairs_sublist _ _).mem hp, rfl⟩
  · intro h
    rw [List.mem_map] at h
    obtain ⟨p, hp, rfl⟩ := h
    have h2 : pairSno p ∈ (drop_duplicate_pairs (sheet5_records g t) []).map pairSno := by
      rw [mem_pairSno_drop_duplicate_pairs]
      exact ⟨List.mem_map_of_mem pairSno hp, List.not_mem_nil _⟩
    rw [List.mem_map] at h2
    obtain ⟨q, hq, hqe⟩ := h2
    rw [List.mem_map]
    refine ⟨q, hq, ?_⟩
    have : (pairSno q).2 = (pairSno p).2 := by rw [hqe]
    exact this

/-! ## Helper lemmas: the "-only" sheets -/

theorem mem_sheet2_snos {g t : List Record} {r : Record} (hr : r ∈ g) :
    r.sno ∈ (sheet2 g t).map (fun x => x.sno) ↔ r.sno ∉ gstr2b_processed_5 g t := by
  constructor
  · intro h
    rw [List.mem_map] at h
    obtain ⟨x, hx, hxe⟩ := h
    have := (mem_filter_proc.1 hx).2
    rw [hxe] at this
    exact this
  · intro h
    exact List.mem_map_of_mem _ (mem_filter_proc.2 ⟨hr, h⟩)

theorem mem_sheet3_snos {g t : List Record} {s : Record} (hs : s ∈ t) :
    s.sno ∈ (sheet3 g t).map (fun x => x.sno) ↔ s.sno ∉ tally_processed_5 g t := by
  constructor
  · intro h
    rw [List.mem_map] at h
    obtain ⟨x, hx, hxe⟩ := h
    have := (mem_filter_proc.1 hx).2
    rw [hxe] at this
    exact this
  · intro h
    exact List.mem_map_of_mem _ (mem_filter_proc.2 ⟨hs, h⟩)

theorem sheet2_snos_not_processed {g t : List Record} {x : Nat}
    (h : x ∈ (sheet2 g t).map (fun r => r.sno)) : x ∉ gstr2b_processed_5 g t := by
  rw [List.mem_map] at h
  obtain ⟨r, hr, rfl⟩ := h
  exact (mem_filter_proc.1 hr).2

theorem sheet3_snos_not_processed {g t : List Record} {x : Nat}
    (h : x ∈ (sheet3 g t).map (fun r => r.sno)) : x ∉ tally_processed_5 g t := by
  rw [List.mem_map] at h
  obtain ⟨r, hr, rfl⟩ := h
  exact (mem_filter_proc.1 hr).2

/-! ## Claim C1 -/

/-- Exactly one of four propositions holds. -/
def ExactlyOne4 (p1 p2 p3 p4 : Prop) : Prop :=
  (p1 ∨ p2 ∨ p3 ∨ p4) ∧
    ¬(p1 ∧ p2) ∧ ¬(p1 ∧ p3) ∧ ¬(p1 ∧ p4) ∧ ¬(p2 ∧ p3) ∧ ¬(p2 ∧ p4) ∧ ¬(p3 ∧ p4)

/-- C1: For every run that passes column validation, every Set-A record's
`sourceRowId` (S.No) appears in exactly one of the four A-side output
categories — matched-full (Sheet 1), value-mismatch (Sheet 4),
invoice-only-mismatch (Sheet 5), A-only (Sheet 2) — and symmetrically every
Set-B record appears in exactly one of Sheet 1, Sheet 4, Sheet 5,
B-only (Sheet 3): no record is emitted in two categories and no record is
dropped from all categories. -/
theorem c1_partition_exactly_one (g t : List Record) :
    (∀ r ∈ g,
      ExactlyOne4
        (r.sno ∈ (merged_full g t).map (fun p => p.1.sno))
        (r.sno ∈ (sheet4_data g t).map (fun p => p.1.sno))
        (r.sno ∈ (sheet5_final g t).map (fun p => p.1.sno))
        (r.sno ∈ (sheet2 g t).map (fun x => x.sno))) ∧
    (∀ s ∈ t,
      ExactlyOne4
        (s.sno ∈ (merged_full g t).map (fun p => p.2.sno))
        (s.sno ∈ (sheet4_data g t).map (fun p => p.2.sno))
        (s.sno ∈ (sheet5_final g t).map (fun p => p.2.sno))
        (s.sno ∈ (sheet3 g t).map (fun x => x.sno))) := by
  constructor
  · intro r hr
    have hd41 : r.sno ∈ (sheet4_data g t).map (fun p => p.1.sno) →
        r.sno ∉ (merged_full g t).map (fun p => p.1.sno) :=
      sheet4_fst_sno_not_sheet1
    have hd5 : r.sno ∈ (sheet5_final g t).map (fun p => p.1.sno) →
        r.sno ∉ gstr2b_processed_4 g t := fun h =>
      sheet5_fst_sno_not_processed_4 (sheet5_final_fst_snos.1 h)
    have hd2 : r.sno ∈ (sheet2 g t).map (fun x => x.sno) →
        r.sno ∉ gstr2b_processed_5 g t :=
      sheet2_snos_not_processed
    refine ⟨?_, ?_, ?_, ?_, ?_, ?_, ?_⟩
    · by_cases hp : r.sno ∈ gstr2b_processed_5 g t
      · rcases mem_gstr2b_processed_5.1 hp with h4 | h5
        · rcases mem_gstr2b_processed_4.1 h4 with h1 | h4'
          · exact Or.inl h1
          · exact Or.inr (Or.inl h4')
        · exact Or.inr (Or.inr (Or.inl (sheet5_final_fst_snos.2 h5)))
      · exact Or.inr (Or.inr (Or.inr ((mem_sheet2_snos hr).2 hp)))
    · rintro ⟨h1, h4⟩
      exact hd41 h4 h1
    · rintro ⟨h1, h5⟩
      exact hd5 h5 (mem_gstr2b_processed_4.2 (Or.inl h1))
    · rintro ⟨h1, h2⟩
      exact hd2 h2 (mem_gstr2b_processed_5.2 (Or.inl (mem_gstr2b_processed_4.2 (Or.inl h1))))
    · rintro ⟨h4, h5⟩
      exact hd5 h5 (mem_gstr2b_processed_4.2 (Or.inr h4))
    · rintro ⟨h4, h2⟩
      exact hd2 h2 (mem_gstr2b_processed_5.2 (Or.inl (mem_gstr2b_processed_4.2 (Or.inr h4))))
    · rintro ⟨h5, h2⟩
      exact hd2 h2 (mem_gstr2b_processed_5.2 (Or.inr (sheet5_final_fst_snos.1 h5)))
  · intro s hs
    have hd41 : s.sno ∈ (sheet4_data g t).map (fun p => p.2.sno) →
        s.sno ∉ (merged_full g t).map (fun p => p.2.sno) :=
      sheet4_snd_sno_not_sheet1
    have hd5 : s.sno ∈ (sheet5_final g t).map (fun p => p.2.sno) →
        s.sno ∉ tally_processed_4 g t := fun h =>
      sheet5_snd_sno_not_processed_4 (sheet5_final_snd_snos.1 h)
    have hd2 : s.sno ∈ (sheet3 g t).map (fun x => x.sno) →
        s.sno ∉ tally_processed_5 g t :=
      sheet3_snos_not_processed
    refine ⟨?_, ?_, ?_, ?_, ?_, ?_, ?_⟩
    · by_cases hp : s.sno ∈ tally_processed_5 g t
      · rcases mem_tally_processed_5.1 hp with h4 | h5
        · rcases mem_tally_processed_4.1 h4 with h1 | h4'
          · exact Or.inl h1
          · exact Or.inr (Or.inl h4')
        · exact Or.inr (Or.inr (Or.inl (sheet5_final_snd_snos.2 h5)))
      · exact Or.inr (Or.inr (Or.inr ((mem_sheet3_snos hs).2 hp)))
    · rintro ⟨h1, h4⟩
      exact hd41 h4 h1
    · rintro ⟨h1, h5⟩
      exact hd5 h5 (mem_tally_processed_4.2 (Or.inl h1))
    · rintro ⟨h1, h2⟩
      exact hd2 h2 (mem_tally_processed_5.2 (Or.inl (mem_tally_processed_4.2 (Or.inl h1))))
    · rintro ⟨h4, h5⟩
      exact hd5 h5 (mem_tally_processed_4.2 (Or.inr h4))
    · rintro ⟨h4, h2⟩
      exact hd2 h2 (mem_tally_processed_5.2 (Or.inl (mem_tally_processed_4.2 (Or.inr h4))))
    · rintro ⟨h5, h2⟩
      exact hd2 h2 (mem_tally_processed_5.2 (Or.inr (sheet5_final_snd_snos.1 h5)))

/-- Witness for C1 at a concrete run: the two-record inputs of the spec's
scenarios 1 and 2 combined. -/
theorem c1_partition_exactly_one_witness :
    ExactlyOne4
      (exG1.sno ∈ (merged_full [exG1] [exT2] : List (Record × Record)).map (fun p => p.1.sno))
      (exG1.sno ∈ (sheet4_data [exG1] [exT2]).map (fun p => p.1.sno))
      (exG1.sno ∈ (sheet5_final [exG1] [exT2]).map (fun p => p.1.sno))
      (exG1.sno ∈ (sheet2 [exG1] [exT2]).map (fun x => x.sno)) :=
  (c1_partition_exactly_one [exG1] [exT2]).1 exG1 (by decide)

/-! ## The tolerance check agrees with `1/100 < |a - b|` -/

theorem tol_lt_absdiff_iff (a b : ℚ) :
    tol_lt_absdiff a b = true ↔ (1 : ℚ)/100 < |a - b| := by
  unfold tol_lt_absdiff
  rw [decide_eq_true_eq]
  have hD : (0:ℚ) < ((a.den * b.den : ℕ) : ℚ) :=
    Nat.cast_pos.mpr (Nat.mul_pos a.den_pos b.den_pos)
  have hsub : a - b =
      ((a.num * (b.den:ℤ) - b.num * (a.den:ℤ) : ℤ) : ℚ) / ((a.den * b.den : ℕ) : ℚ) := by
    rw [Rat.sub_def', Rat.mkRat_eq_divInt, Rat.divInt_eq_div]
    push_cast
    ring
  rw [hsub, abs_div, abs_of_pos hD, div_lt_div_iff₀ (by norm_num) hD, one_mul]
  rw [show |((a.num * (b.den:ℤ) - b.num * (a.den:ℤ) : ℤ) : ℚ)| =
      (((a.num * (b.den:ℤ) - b.num * (a.den:ℤ)).natAbs : ℕ) : ℚ) by
    rw [← Int.cast_abs, Int.abs_eq_natAbs, Int.cast_natCast]]
  rw [show (((a.num * (b.den:ℤ) - b.num * (a.den:ℤ)).natAbs : ℕ) : ℚ) * 100 =
      (((a.num * (b.den:ℤ) - b.num * (a.den:ℤ)).natAbs * 100 : ℕ) : ℚ) by push_cast; ring]
  rw [Nat.cast_lt, Nat.mul_comm _ 100]

/-! ## Claim C4 -/

/-- C4: For every record that has a full-key (Tier 1) partner on the other
side, that record is consumed at Tier 1 and never appears in the Value
Mismatched, Not Matching, or "-only" outputs of any later tier. -/
theorem c4_tier1_precedence (g t : List Record) :
    (∀ r ∈ g, (∃ s ∈ t, match_key_full r = match_key_full s) →
      r.sno ∈ gstr2b_processed_1 g t ∧
      r.sno ∉ (sheet4_data g t).map (fun p => p.1.sno) ∧
      r.sno ∉ (sheet5_final g t).map (fun p => p.1.sno) ∧
      r.sno ∉ (sheet2 g t).map (fun x => x.sno)) ∧
    (∀ s ∈ t, (∃ r ∈ g, match_key_full r = match_key_full s) →
      s.sno ∈ tally_processed_1 g t ∧
      s.sno ∉ (sheet4_data g t).map (fun p => p.2.sno) ∧
      s.sno ∉ (sheet5_final g t).map (fun p => p.2.sno) ∧
      s.sno ∉ (sheet3 g t).map (fun x => x.sno)) := by
  constructor
  · rintro r hr ⟨s, hs, hkey⟩
    have hpair : (r, s) ∈ merged_full g t := mem_innerMerge.2 ⟨hr, hs, hkey⟩
    have h1 : r.sno ∈ gstr2b_processed_1 g t := List.mem_map_of_mem _ hpair
    refine ⟨h1, ?_, ?_, ?_⟩
    · intro h4
      exact sheet4_fst_sno_not_sheet1 h4 h1
    · intro h5
      exact sheet5_fst_sno_not_processed_4 (sheet5_final_fst_snos.1 h5)
        (mem_gstr2b_processed_4.2 (Or.inl h1))
    · intro h2
      exact sheet2_snos_not_processed h2
        (mem_gstr2b_processed_5.2 (Or.inl (mem_gstr2b_processed_4.2 (Or.inl h1))))
  · rintro s hs ⟨r, hr, hkey⟩
    have hpair : (r, s) ∈ merged_full g t := mem_innerMerge.2 ⟨hr, hs, hkey⟩
    have h1 : s.sno ∈ tally_processed_1 g t := List.mem_map_of_mem (fun p => p.2.sno) hpair
    refine ⟨h1, ?_, ?_, ?_⟩
    · intro h4
      exact sheet4_snd_sno_not_sheet1 h4 h1
    · intro h5
      exact sheet5_snd_sno_not_processed_4 (sheet5_final_snd_snos.1 h5)
        (mem_tally_processed_4.2 (Or.inl h1))
    · intro h3
      exact sheet3_snos_not_processed h3
        (mem_tally_processed_5.2 (Or.inl (mem_tally_processed_4.2 (Or.inl h1))))

/-- Witness for C4: the identical pair of the spec's scenario 1. -/
theorem c4_tier1_precedence_witness :
    exG1.sno ∈ gstr2b_processed_1 [exG1] [exT1] ∧
    exG1.sno ∉ (sheet4_data [exG1] [exT1]).map (fun p => p.1.sno) ∧
    exG1.sno ∉ (sheet5_final [exG1] [exT1]).map (fun p => p.1.sno) ∧
    exG1.sno ∉ (sheet2 [exG1] [exT1]).map (fun x => x.sno) :=
  (c4_tier1_precedence [exG1] [exT1]).1 exG1 (by decide) ⟨exT1, by decide, by decide⟩

/-! ## Claim C5 -/

/-- C5: At Tier 2, a candidate pair that matches on the partial key is
emitted in the value-mismatch table if and only if the absolute
taxable-value difference is strictly greater than 0.01; a difference of
exactly 0.01 is treated as not a mismatch, and both records of every
emitted pair are marked consumed. -/
theorem c5_tier2_tolerance (g t : List Record) :
    (∀ p ∈ merged_value g t,
      (p ∈ sheet4_data g t ↔ (1:ℚ)/100 < |p.1.taxable_value - p.2.taxable_value|)) ∧
    (∀ p ∈ merged_value g t,
      |p.1.taxable_value - p.2.taxable_value| = 1/100 → p ∉ sheet4_data g t) ∧
    (∀ p ∈ sheet4_data g t,
      p.1.sno ∈ gstr2b_processed_4 g t ∧ p.2.sno ∈ tally_processed_4 g t) := by
  have hiff : ∀ p : Record × Record, p ∈ merged_value g t →
      (p ∈ sheet4_data g t ↔ (1:ℚ)/100 < |p.1.taxable_value - p.2.taxable_value|) := by
    intro p hp
    unfold sheet4_data
    rw [List.mem_filter, ← tol_lt_absdiff_iff]
    exact ⟨fun h => h.2, fun h => ⟨hp, h⟩⟩
  refine ⟨hiff, ?_, ?_⟩
  · intro p hp heq
    rw [hiff p hp, heq]
    exact lt_irrefl _
  · intro p hp
    exact ⟨mem_gstr2b_processed_4.2 (Or.inr (List.mem_map_of_mem _ hp)),
      mem_tally_processed_4.2 (Or.inr (List.mem_map_of_mem _ hp))⟩

/-- Witness for C5: scenario 2's pair (1000 vs 1050) is a Tier-2 candidate
and is emitted, and both its S.No values are consumed. -/
theorem c5_tier2_tolerance_witness :
    ((exG1, exT2) ∈ merged_value [exG1] [exT2]) ∧
    ((exG1, exT2) ∈ sheet4_data [exG1] [exT2] ↔
      (1:ℚ)/100 < |exG1.taxable_value - exT2.taxable_value|) ∧
    (exG1.sno ∈ gstr2b_processed_4 [exG1] [exT2] ∧
      exT2.sno ∈ tally_processed_4 [exG1] [exT2]) :=
  ⟨by decide, (c5_tier2_tolerance [exG1] [exT2]).1 (exG1, exT2) (by decide),
    (c5_tier2_tolerance [exG1] [exT2]).2.2 (exG1, exT2) (by decide)⟩

/-! ## Injectivity of the numeric rendering

`astype(str)` on a float column is injective (two cells render equal
strings only when they hold the same value); the model's `ratStr` must be
injective as well, since full-key matching depends on it. -/

theorem digitsRev_fuel_irrel :
    ∀ (f1 : Nat), ∀ {f2 n : Nat}, n ≤ f1 → n ≤ f2 → digitsRev f1 n = digitsRev f2 n := by
  intro f1
  induction f1 with
  | zero =>
    intro f2 n h1 _
    interval_cases n
    cases f2 <;> simp [digitsRev]
  | succ f ih =>
    intro f2 n h1 h2
    match n, h1, h2 with
    | 0, _, _ => cases f2 <;> simp [digitsRev]
    | m + 1, h1, h2 =>
      match f2, h2 with
      | f2 + 1, h2 =>
        show digitsRev (f + 1) (m + 1) = digitsRev (f2 + 1) (m + 1)
        rw [digitsRev, digitsRev, if_neg (Nat.succ_ne_zero m), if_neg (Nat.succ_ne_zero m)]
        have hdiv : (m + 1) / 10 ≤ m := by omega
        exact congrArg _ (ih (Nat.le_trans hdiv (Nat.succ_le_succ_iff.1 h1))
          (Nat.le_trans hdiv (Nat.succ_le_succ_iff.1 h2)))

theorem natDigits_cons {n : Nat} (h : n ≠ 0) :
    natDigits n = n % 10 :: natDigits (n / 10) := by
  match n, h with
  | m + 1, _ =>
    show digitsRev (m + 1) (m + 1) = (m + 1) % 10 :: digitsRev ((m + 1) / 10) ((m + 1) / 10)
    rw [digitsRev, if_neg (Nat.succ_ne_zero m)]
    have hdiv : (m + 1) / 10 ≤ m := by omega
    exact congrArg _ (digitsRev_fuel_irrel m hdiv (Nat.le_refl _))

/-- Decoder of the little-endian digit list. -/
def ofDigitsRev : List Nat → Nat
  | [] => 0
  | d :: ds => d + 10 * ofDigitsRev ds

theorem ofDigitsRev_natDigits : ∀ n, ofDigitsRev (natDigits n) = n := by
  intro n
  induction n using Nat.strong_induction_on with
  | _ n ih =>
    by_cases h : n = 0
    · subst h; rfl
    · rw [natDigits_cons h, ofDigitsRev, ih (n / 10) (Nat.div_lt_self (Nat.pos_of_ne_zero h) (by norm_num))]
      exact Nat.mod_add_div n 10

theorem natDigits_injective {a b : Nat} (h : natDigits a = natDigits b) : a = b := by
  rw [← ofDigitsRev_natDigits a, ← ofDigitsRev_natDigits b, h]

theorem natDigits_lt_ten : ∀ n, ∀ d ∈ natDigits n, d < 10 := by
  intro n
  induction n using Nat.strong_induction_on with
  | _ n ih =>
    intro d hd
    by_cases h : n = 0
    · subst h; exact absurd hd (List.not_mem_nil d)
    · rw [natDigits_cons h] at hd
      rcases List.mem_cons.1 hd with rfl | hd'
      · exact Nat.mod_lt n (by norm_num)
      · exact ih (n / 10) (Nat.div_lt_self (Nat.pos_of_ne_zero h) (by norm_num)) d hd'

theorem digitChar10_inj {a b : Nat} (ha : a < 10) (hb : b < 10)
    (h : digitChar10 a = digitChar10 b) : a = b := by
  interval_cases a <;> interval_cases b <;> first | rfl | exact absurd h (by decide)

theorem digitChar10_isDigit {d : Nat} (hd : d < 10) : (digitChar10 d).isDigit = true := by
  interval_cases d <;> decide

theorem map_digitChar10_inj :
    ∀ (l1 l2 : List Nat), (∀ d ∈ l1, d < 10) → (∀ d ∈ l2, d < 10) →
      l1.map digitChar10 = l2.map digitChar10 → l1 = l2 := by
  intro l1
  induction l1 with
  | nil =>
    intro l2 _ _ h
    cases l2 with
    | nil => rfl
    | cons b bs => exact absurd h (by simp)
  | cons a as ih =>
    intro l2 h1 h2 h
    cases l2 with
    | nil => exact absurd h (by simp)
    | cons b bs =>
      rw [List.map_cons, List.map_cons] at h
      have hab := digitChar10_inj (h1 a (List.mem_cons_self _ _)) (h2 b (List.mem_cons_self _ _))
        (List.cons.injEq .. ▸ h).1
      rw [hab, ih bs (fun d hd => h1 d (List.mem_cons_of_mem _ hd))
        (fun d hd => h2 d (List.mem_cons_of_mem _ hd)) (List.cons.injEq .. ▸ h).2]

theorem mem_natStr_isDigit (n : Nat) : ∀ c ∈ (natStr n).data, c.isDigit = true := by
  intro c hc
  unfold natStr at hc
  by_cases h : n = 0
  · rw [if_pos h] at hc
    rcases List.mem_cons.1 hc with rfl | hc'
    · decide
    · exact absurd hc' (List.not_mem_nil c)
  · rw [if_neg h] at hc
    have hc2 : c ∈ ((natDigits n).reverse.map digitChar10) := hc
    rw [List.mem_map] at hc2
    obtain ⟨d, hd, rfl⟩ := hc2
    exact digitChar10_isDigit (natDigits_lt_ten n d (List.mem_reverse.1 hd))

theorem natStr_head_digit (n : Nat) :
    ∃ c cs, (natStr n).data = c :: cs ∧ c.isDigit = true := by
  cases hd : (natStr n).data with
  | nil =>
    exfalso
    unfold natStr at hd
    by_cases h : n = 0
    · rw [if_pos h] at hd
      exact absurd hd (by decide)
    · rw [if_neg h] at hd
      have : (natDigits n).reverse.map digitChar10 = [] := hd
      rw [List.map_eq_nil_iff, List.reverse_eq_nil_iff] at this
      exact h (natDigits_injective (by rw [this]; rfl))
  | cons c cs =>
    exact ⟨c, cs, rfl, mem_natStr_isDigit n c (hd ▸ List.mem_cons_self c cs)⟩

theorem natStr_injective {a b : Nat} (h : natStr a = natStr b) : a = b := by
  unfold natStr at h
  by_cases ha : a = 0 <;> by_cases hb : b = 0
  · rw [ha, hb]
  · exfalso
    rw [if_pos ha, if_neg hb] at h
    have hdata : ['0'] = (natDigits b).reverse.map digitChar10 := congrArg String.data h
    cases hrev : (natDigits b).reverse with
    | nil => rw [hrev] at hdata; exact absurd hdata (by simp)
    | cons d ds =>
      cases ds with
      | nil =>
        rw [hrev] at hdata
        have hd0 : digitChar10 d = '0' := ((List.cons.injEq .. ▸ hdata).1).symm
        have hd10 : d < 10 :=
          natDigits_lt_ten b d (List.mem_reverse.1 (hrev ▸ List.mem_cons_self d []))
        have hdz : d = 0 := digitChar10_inj hd10 (by norm_num) (by rw [hd0]; rfl)
        have hbd : natDigits b = [d] := by
          rw [← List.reverse_reverse (natDigits b), hrev]
          simp
        exact hb (by rw [← ofDigitsRev_natDigits b, hbd, hdz]; rfl)
      | cons d2 ds2 => rw [hrev] at hdata; exact absurd hdata (by simp)
  · exfalso
    rw [if_neg ha, if_pos hb] at h
    have hdata : (natDigits a).reverse.map digitChar10 = ['0'] := congrArg String.data h
    cases hrev : (natDigits a).reverse with
    | nil => rw [hrev] at hdata; exact absurd hdata (by simp)
    | cons d ds =>
      cases ds with
      | nil =>
        rw [hrev] at hdata
        have hd0 : digitChar10 d = '0' := (List.cons.injEq .. ▸ hdata).1
        have hd10 : d < 10 :=
          natDigits_lt_ten a d (List.mem_reverse.1 (hrev ▸ List.mem_cons_self d []))
        have hdz : d = 0 := digitChar10_inj hd10 (by norm_num) (by rw [hd0]; rfl)
        have hbd : natDigits a = [d] := by
          rw [← List.reverse_reverse (natDigits a), hrev]
          simp
        exact ha (by rw [← ofDigitsRev_natDigits a, hbd, hdz]; rfl)
      | cons d2 ds2 => rw [hrev] at hdata; exact absurd hdata (by simp)
  · rw [if_neg ha, if_neg hb] at h
    have hdata : (natDigits a).reverse.map digitChar10 = (natDigits b).reverse.map digitChar10 :=
      congrArg String.data h
    have := map_digitChar10_inj _ _
      (fun d hd => natDigits_lt_ten a d (List.mem_reverse.1 hd))
      (fun d hd => natDigits_lt_ten b d (List.mem_reverse.1 hd)) hdata
    exact natDigits_injective (List.reverse_injective this)

theorem natStr_no_slash (n : Nat) : '/' ∉ (natStr n).data := by
  intro h
  have := mem_natStr_isDigit n '/' h
  exact absurd this (by decide)

theorem append_slash_inj :
    ∀ (a c b d : List Char), '/' ∉ a → '/' ∉ c →
      a ++ '/' :: b = c ++ '/' :: d → a = c ∧ b = d := by
  intro a
  induction a with
  | nil =>
    intro c b d _ hc h
    cases c with
    | nil => exact ⟨rfl, (List.cons.injEq .. ▸ h).2⟩
    | cons c0 cs =>
      exfalso
      have : '/' = c0 := (List.cons.injEq .. ▸ h).1
      exact hc (this ▸ List.mem_cons_self c0 _)
  | cons a0 as ih =>
    intro c b d ha hc h
    cases c with
    | nil =>
      exfalso
      have : a0 = '/' := (List.cons.injEq .. ▸ h).1
      exact ha (this ▸ List.mem_cons_self a0 _)
    | cons c0 cs =>
      have h1 : a0 = c0 := (List.cons.injEq .. ▸ h).1
      have h2 := ih cs b d (fun hm => ha (List.mem_cons_of_mem _ hm))
        (fun hm => hc (List.mem_cons_of_mem _ hm)) (List.cons.injEq .. ▸ h).2
      exact ⟨by rw [h1, h2.1], h2.2⟩

theorem ratStr_injective {q1 q2 : ℚ} (h : ratStr q1 = ratStr q2) : q1 = q2 := by
  unfold ratStr at h
  have hdata := congrArg String.data h
  simp only [String.data_append] at hdata
  by_cases h1 : q1.num < 0 <;> by_cases h2 : q2.num < 0
  · rw [if_pos h1, if_pos h2] at hdata
    simp only [List.append_assoc, List.cons_append, List.nil_append] at hdata
    have htail : (natStr q1.num.natAbs).data ++ '/' :: (natStr q1.den).data =
        (natStr q2.num.natAbs).data ++ '/' :: (natStr q2.den).data :=
      (List.cons.injEq .. ▸ hdata).2
    have hsplit := append_slash_inj _ _ _ _ (natStr_no_slash _) (natStr_no_slash _) htail
    have hnum : q1.num = q2.num := by
      have := natStr_injective (String.ext hsplit.1)
      omega
    exact Rat.ext hnum (natStr_injective (String.ext hsplit.2))
  · exfalso
    rw [if_pos h1, if_neg h2] at hdata
    simp only [List.append_assoc, List.cons_append, List.nil_append] at hdata
    obtain ⟨c, cs, hcs, hdig⟩ := natStr_head_digit q2.num.natAbs
    rw [hcs] at hdata
    simp only [List.cons_append] at hdata
    have : '-' = c := (List.cons.injEq .. ▸ hdata).1
    rw [← this] at hdig
    exact absurd hdig (by decide)
  · exfalso
    rw [if_neg h1, if_pos h2] at hdata
    simp only [List.append_assoc, List.cons_append, List.nil_append] at hdata
    obtain ⟨c, cs, hcs, hdig⟩ := natStr_head_digit q1.num.natAbs
    rw [hcs] at hdata
    simp only [List.cons_append] at hdata
    have : c = '-' := (List.cons.injEq .. ▸ hdata).1
    rw [this] at hdig
    exact absurd hdig (by decide)
  · rw [if_neg h1, if_neg h2] at hdata
    simp only [List.append_assoc, List.cons_append, List.nil_append] at hdata
    have hsplit := append_slash_inj _ _ _ _ (natStr_no_slash _) (natStr_no_slash _) hdata
    have hnum : q1.num = q2.num := by
      have := natStr_injective (String.ext hsplit.1)
      omega
    exact Rat.ext hnum (natStr_injective (String.ext hsplit.2))

/-- Two records that agree on invoice number, GSTIN and date but differ in
taxable value have different full match keys (`astype(str)` is injective). -/
theorem match_key_full_ne_of_taxable_ne {r s : Record}
    (hinv : r.invoice_number = s.invoice_number) (hg : r.gstin = s.gstin)
    (hd : r.invoice_date = s.invoice_date) (ht : r.taxable_value ≠ s.taxable_value) :
    match_key_full r ≠ match_key_full s := by
  unfold match_key_full
  rw [hinv, hg, hd]
  intro h
  apply ht
  apply ratStr_injective
  apply String.ext
  have hdata := congrArg String.data h
  simp only [String.data_append, List.append_assoc] at hdata
  exact ((List.append_right_inj _).1 ((List.append_right_inj _).1 ((List.append_right_inj _).1 hdata)))

/-! ## A single skipped pair: the run on two singleton inputs -/

/-- When the one GSTR2B record and the one Tally record differ in full key,
agree on the partial key and on invoice number, fail the tolerance check
and fail every Sheet 5 predicate, the run consumes nothing: every matching
table is empty and both records land in their "-only" sheets. -/
theorem singleton_run_skip (r s : Record)
    (hbfull : (match_key_full r == match_key_full s) = false)
    (hbval : (match_key_value r == match_key_value s) = true)
    (hbinv : (r.invoice_number == s.invoice_number) = true)
    (htol : tol_lt_absdiff r.taxable_value s.taxable_value = false)
    (hemit : sheet5_emit (r, s) = false) :
    merged_full [r] [s] = [] ∧ merged_value [r] [s] = [(r, s)] ∧
    sheet4_data [r] [s] = [] ∧ sheet5_records [r] [s] = [] ∧
    sheet5_final [r] [s] = [] ∧
    gstr2b_processed_5 [r] [s] = [] ∧ tally_processed_5 [r] [s] = [] ∧
    sheet2 [r] [s] = [r] ∧ sheet3 [r] [s] = [s] := by
  have e1 : merged_full [r] [s] = [] := by
    simp [merged_full, innerMerge, hbfull]
  have e2 : potential_sheet4_gstr [r] [s] = [r] := by
    simp [potential_sheet4_gstr, gstr2b_processed_1, e1]
  have e3 : potential_sheet4_tally [r] [s] = [s] := by
    simp [potential_sheet4_tally, tally_processed_1, e1]
  have e4 : merged_value [r] [s] = [(r, s)] := by
    simp [merged_value, e2, e3, innerMerge, hbval]
  have e5 : sheet4_data [r] [s] = [] := by
    simp [sheet4_data, e4, htol]
  have e6 : gstr2b_remaining [r] [s] = [r] := by
    simp [gstr2b_remaining, gstr2b_processed_4, gstr2b_processed_1, e1, e5]
  have e7 : tally_remaining [r] [s] = [s] := by
    simp [tally_remaining, tally_processed_4, tally_processed_1, e1, e5]
  have e8 : merged_invoice_only [r] [s] = [(r, s)] := by
    simp [merged_invoice_only, e6, e7, innerMerge, hbinv]
  have e9 : sheet5_records [r] [s] = [] := by
    simp [sheet5_records, e8, hemit]
  have e10 : sheet5_final [r] [s] = [] := by
    simp [sheet5_final, e9, drop_duplicate_pairs]
  have e11 : gstr2b_processed_5 [r] [s] = [] := by
    simp [gstr2b_processed_5, gstr2b_processed_4, gstr2b_processed_1, e1, e5, e9]
  have e12 : tally_processed_5 [r] [s] = [] := by
    simp [tally_processed_5, tally_processed_4, tally_processed_1, e1, e5, e9]
  have e13 : sheet2 [r] [s] = [r] := by
    simp [sheet2, e11]
  have e14 : sheet3 [r] [s] = [s] := by
    simp [sheet3, e12]
  exact ⟨e1, e4, e5, e9, e10, e11, e12, e13, e14⟩

/-- The three Sheet 5 predicates are all false for a pair that agrees
componentwise on GSTIN and on a parseable date and passes the tolerance
check. -/
theorem sheet5_emit_false_of_agree {r s : Record}
    (hg : r.gstin = s.gstin) (hdate : r.invoice_date = s.invoice_date)
    (hsome : ∃ d, r.invoice_date = some d)
    (htol : tol_lt_absdiff r.taxable_value s.taxable_value = false) :
    sheet5_emit (r, s) = false := by
  obtain ⟨d, hd⟩ := hsome
  have hds : s.invoice_date = some d := hdate ▸ hd
  have h1 : is_gstin_mismatch (r, s) = false := by
    unfold is_gstin_mismatch
    rw [show (r, s).1 = r from rfl, show (r, s).2 = s from rfl, hg]
    exact bne_self_eq_false s.gstin
  have h2 : is_date_mismatch (r, s) = false := by
    unfold is_date_mismatch
    rw [show (r, s).1 = r from rfl, show (r, s).2 = s from rfl, hd, hds]
    unfold date_ne
    exact bne_self_eq_false d
  have h3 : is_taxable_value_mismatch (r, s) = false := htol
  unfold sheet5_emit
  rw [h1, h2, h3]
  rfl

/-! ## Claim C2 -/

/-- The exact-0.01 difference of the concrete pair `exG2c`, `exT2c`. -/
theorem exPair2_abs : |exG2c.taxable_value - exT2c.taxable_value| = 1/100 := by
  show |(1000 : ℚ) - mkRat 100001 100| = 1/100
  rw [Rat.mkRat_eq_divInt, Rat.divInt_eq_div]
  push_cast
  rw [show (1000 : ℚ) - 100001 / 100 = -(1/100) by norm_num]
  rw [abs_neg, abs_of_nonneg (by norm_num : (0:ℚ) ≤ 1/100)]

/-- C2 counterexample: a pair identical in invoice number, GSTIN and date
whose taxable values differ by exactly 0.01 is NOT emitted in the Matched
Invoices table — the full match key includes `str(Taxable Value)`, so the
two full keys differ and Tier 1 does not pair them. -/
theorem c2_counterexample :
    exG2c.invoice_number = exT2c.invoice_number ∧ exG2c.gstin = exT2c.gstin ∧
    exG2c.invoice_date = exT2c.invoice_date ∧
    |exG2c.taxable_value - exT2c.taxable_value| = 1/100 ∧
    match_key_full exG2c ≠ match_key_full exT2c ∧
    merged_full [exG2c] [exT2c] = [] :=
  ⟨rfl, rfl, rfl, exPair2_abs, by decide, by decide⟩

/-- C2 amended: a pair identical in invoice number, GSTIN and (parseable)
date whose taxable values differ by exactly 0.01 is classified neither as
matched-full (the full key includes the taxable value, so Tier 1 never
pairs it) nor as value-mismatch (the tolerance check uses strict `>`); it
also fails every Tier 3 predicate, and with no other partner both records
land in their respective "-only" sheets. -/
theorem c2_amended (r s : Record)
    (hinv : r.invoice_number = s.invoice_number) (hg : r.gstin = s.gstin)
    (hdate : r.invoice_date = s.invoice_date) (hsome : ∃ d, r.invoice_date = some d)
    (habs : |r.taxable_value - s.taxable_value| = 1/100) :
    merged_full [r] [s] = [] ∧
    sheet4_data [r] [s] = [] ∧
    sheet5_emit (r, s) = false ∧
    sheet5_final [r] [s] = [] ∧
    sheet2 [r] [s] = [r] ∧ sheet3 [r] [s] = [s] := by
  have hne : r.taxable_value ≠ s.taxable_value := by
    intro he
    rw [he, sub_self, abs_zero] at habs
    exact absurd habs.symm (by norm_num)
  have htol : tol_lt_absdiff r.taxable_value s.taxable_value = false := by
    rw [Bool.eq_false_iff]
    intro hcon
    rw [tol_lt_absdiff_iff, habs] at hcon
    exact lt_irrefl _ hcon
  have hbfull : (match_key_full r == match_key_full s) = false :=
    beq_eq_false_iff_ne.2 (match_key_full_ne_of_taxable_ne hinv hg hdate hne)
  have hbval : (match_key_value r == match_key_value s) = true := by
    rw [beq_iff_eq]
    unfold match_key_value
    rw [hinv, hg, hdate]
  have hemit := sheet5_emit_false_of_agree hg hdate hsome htol
  obtain ⟨e1, _, e5, _, e10, _, _, e13, e14⟩ :=
    singleton_run_skip r s hbfull hbval (beq_iff_eq.2 hinv) htol hemit
  exact ⟨e1, e5, hemit, e10, e13, e14⟩

/-- Witness for the amended C2 at the concrete 1000 / 1000.01 pair. -/
theorem c2_amended_witness :
    merged_full [exG2c] [exT2c] = [] ∧
    sheet4_data [exG2c] [exT2c] = [] ∧
    sheet5_emit (exG2c, exT2c) = false ∧
    sheet5_final [exG2c] [exT2c] = [] ∧
    sheet2 [exG2c] [exT2c] = [exG2c] ∧ sheet3 [exG2c] [exT2c] = [exT2c] :=
  c2_amended exG2c exT2c rfl rfl rfl ⟨"01-01-2024", rfl⟩ exPair2_abs

/-! ## Claim C3 -/

/-- C3 counterexample: two records whose dates are both the unparseable
sentinel, identical in everything else, ARE matched at Tier 1: the
sentinel renders as the string "nan" in both keys, so the full keys (and
the partial keys) compare equal. -/
theorem c3_counterexample :
    exG3s.invoice_date = none ∧ exT3s.invoice_date = none ∧
    match_key_full exG3s = match_key_full exT3s ∧
    match_key_value exG3s = match_key_value exT3s ∧
    (exG3s, exT3s) ∈ merged_full [exG3s] [exT3s] := by decide

/-- C3 amended: in the Tier 3 date-mismatch predicate a sentinel date
never compares equal to anything (two sentinels included), and in the
full-key and partial-key renderings a sentinel never equals any date
string made of digits and dashes — but two sentinel dates render as the
same "nan" key component, so otherwise-identical records with unparseable
dates do match (see the counterexample). -/
theorem c3_amended :
    (∀ d : Option String, date_ne none d = true ∧ date_ne d none = true) ∧
    (∀ s : String, (∀ c ∈ s.data, c.isDigit = true ∨ c = '-') →
      dateKeyStr (some s) ≠ dateKeyStr none) := by
  constructor
  · intro d
    cases d <;> exact ⟨rfl, rfl⟩
  · intro s hchars heq
    have heq2 : stripDashes s = "nan" := heq
    have hn : 'n' ∈ (stripDashes s).data := by rw [heq2]; decide
    have hn2 : 'n' ∈ s.data.filter (fun c => c != '-') := hn
    rcases hchars 'n' (List.mem_filter.1 hn2).1 with hd | hd
    · exact absurd hd (by decide)
    · exact absurd hd (by decide)

/-- Witness for the amended C3 at a concrete normalized date string. -/
theorem c3_amended_witness :
    dateKeyStr (some "01-01-2024") ≠ dateKeyStr none :=
  c3_amended.2 "01-01-2024" (by decide)

/-! ## Claim C6 -/

/-- C6: the final Tier 3 (Not Matching) table never contains two rows with
the same (GSTR2B S.No, Tally S.No) combination; it is a sublist of the
emitted rows, and the row kept for each S.No pair is the first occurrence. -/
theorem c6_sheet5_dedup (g t : List Record) :
    (sheet5_final g t).Pairwise (fun p q => pairSno p ≠ pairSno q) ∧
    (sheet5_final g t).Sublist (sheet5_records g t) ∧
    ∀ p ∈ sheet5_records g t, ∃ q,
      (sheet5_records g t).find? (fun x => pairSno x == pairSno p) = some q ∧
      q ∈ sheet5_final g t := by
  refine ⟨drop_duplicate_pairs_pairwise _ _, drop_duplicate_pairs_sublist _ _, ?_⟩
  intro p hp
  exact drop_duplicate_pairs_keeps_first _ [] p hp (List.not_mem_nil _)

/-- Witness for C6 on a run with a genuine duplicate S.No pair. -/
theorem c6_sheet5_dedup_witness :
    ∃ q, (sheet5_records [exG6] [exT6a, exT6b]).find?
        (fun x => pairSno x == pairSno (exG6, exT6a)) = some q ∧
      q ∈ sheet5_final [exG6] [exT6a, exT6b] :=
  (c6_sheet5_dedup [exG6] [exT6a, exT6b]).2.2 (exG6, exT6a) (by decide)

/-! ## Claim C7 -/

theorem find_missing_column_spec :
    ∀ (cols gcols tcols : List String),
      (∃ c ∈ cols, c ∉ gcols ∨ c ∉ tcols) →
      ∃ fc : String × String, find_missing_column cols gcols tcols = some fc ∧
        fc.2 ∈ cols ∧
        ((fc.1 = "GSTR2B" ∧ fc.2 ∉ gcols) ∨ (fc.1 = "Tally" ∧ fc.2 ∉ tcols)) := by
  intro cols
  induction cols with
  | nil =>
    rintro gcols tcols ⟨c, hc, _⟩
    exact absurd hc (List.not_mem_nil c)
  | cons c0 rest ih =>
    rintro gcols tcols ⟨c, hc, hor⟩
    by_cases hg : c0 ∈ gcols
    · by_cases ht : c0 ∈ tcols
      · have hstep : find_missing_column (c0 :: rest) gcols tcols =
            find_missing_column rest gcols tcols := by
          rw [find_missing_column, if_neg (not_not_intro hg), if_neg (not_not_intro ht)]
        have hcrest : c ∈ rest := by
          rcases List.mem_cons.1 hc with rfl | h
          · rcases hor with h | h
            · exact absurd hg h
            · exact absurd ht h
          · exact h
        obtain ⟨fc, h1, h2, h3⟩ := ih gcols tcols ⟨c, hcrest, hor⟩
        exact ⟨fc, by rw [hstep]; exact h1, List.mem_cons_of_mem _ h2, h3⟩
      · refine ⟨("Tally", c0), ?_, List.mem_cons_self _ _, Or.inr ⟨rfl, ht⟩⟩
        rw [find_missing_column, if_neg (not_not_intro hg), if_pos ht]
    · refine ⟨("GSTR2B", c0), ?_, List.mem_cons_self _ _, Or.inl ⟨rfl, hg⟩⟩
      rw [find_missing_column, if_pos hg]

/-- C7: If any of the ten required columns is absent (after trimming
column names) from either input, the run aborts with an error naming the
file and the missing column, before any matching occurs: no category
tables are produced at all. -/
theorem c7_missing_column_aborts (gcols tcols : List String) (g t : List Record)
    (h : ∃ c ∈ required_columns, c ∉ gcols.map str_strip ∨ c ∉ tcols.map str_strip) :
    ∃ fc : String × String,
      runRecon gcols tcols g t = .error fc ∧
      (∀ out : ReconOutput, runRecon gcols tcols g t ≠ .ok out) ∧
      fc.2 ∈ required_columns ∧
      ((fc.1 = "GSTR2B" ∧ fc.2 ∉ gcols.map str_strip) ∨
       (fc.1 = "Tally" ∧ fc.2 ∉ tcols.map str_strip)) := by
  obtain ⟨fc, h1, h2, h3⟩ := find_missing_column_spec required_columns _ _ h
  refine ⟨fc, ?_, ?_, h2, h3⟩
  · rw [runRecon, h1]
  · intro out hcon
    rw [runRecon, h1] at hcon
    exact Except.noConfusion hcon

/-- Witness for C7: a GSTR2B file that (after trimming) has only `S.No`. -/
theorem c7_missing_column_aborts_witness :
    ∃ fc : String × String,
      runRecon ["  S.No  "] required_columns [] [] = .error fc ∧
      (∀ out : ReconOutput, runRecon ["  S.No  "] required_columns [] [] ≠ .ok out) ∧
      fc.2 ∈ required_columns ∧
      ((fc.1 = "GSTR2B" ∧ fc.2 ∉ ["  S.No  "].map str_strip) ∨
       (fc.1 = "Tally" ∧ fc.2 ∉ required_columns.map str_strip)) :=
  c7_missing_column_aborts ["  S.No  "] required_columns [] []
    ⟨"GSTIN of Supplier", by decide, by decide⟩

/-! ## Claim C8 -/

/-- C8: normalization of `Invoice Value` / `Taxable Value` strips every
character other than digits and a decimal point and parses the remainder;
on parse failure (for instance more than one dot) or emptiness the value
becomes 0; the normalization is a total function (it never raises at the
row level). -/
theorem c8_numeric_normalization (s : String) :
    (∀ c ∈ (strip_numeric_chars s).data, c.isDigit = true ∨ c = '.') ∧
    (parseDecimal (strip_numeric_chars s) = none → to_numeric_filled s = 0) ∧
    (∀ q, parseDecimal (strip_numeric_chars s) = some q → to_numeric_filled s = q) ∧
    (strip_numeric_chars s = "" → to_numeric_filled s = 0) := by
  refine ⟨?_, ?_, ?_, ?_⟩
  · intro c hc
    have hc2 : c ∈ s.data.filter (fun c => c.isDigit || c == '.') := hc
    have := (List.mem_filter.1 hc2).2
    simpa using this
  · intro h
    rw [to_numeric_filled, h]
    rfl
  · intro q h
    rw [to_numeric_filled, h]
    rfl
  · intro h
    rw [to_numeric_filled, h]
    rfl

/-- Witness for C8: a messy cell parses to 1234.56; a two-dot cell and an
all-symbols cell fall back to 0. -/
theorem c8_numeric_normalization_witness :
    to_numeric_filled "Rs 1,234.56 Cr" = mkRat 123456 100 ∧
    to_numeric_filled "1.2.3" = 0 ∧
    to_numeric_filled "-" = 0 :=
  ⟨(c8_numeric_normalization "Rs 1,234.56 Cr").2.2.1 (mkRat 123456 100) (by decide),
   (c8_numeric_normalization "1.2.3").2.1 (by decide),
   (c8_numeric_normalization "-").2.2.2 (by decide)⟩

/-! ## Claim C9 -/

/-- C9: for every pair emitted at Tier 3, the reason label is built from
the three predicates (GSTIN, date, taxable value) in that fixed order,
joined with ", "; at least one predicate is true for every emitted pair,
so the reason is never empty (and the classifier, a total function, never
fails). -/
theorem c9_mismatch_reason (g t : List Record) :
    ∀ p ∈ sheet5_records g t,
      (is_gstin_mismatch p || is_date_mismatch p || is_taxable_value_mismatch p) = true ∧
      mismatch_reason p ≠ "" ∧
      mismatch_reason p ∈ [
        "GSTIN mismatch", "Date mismatch", "Taxable Value mismatch",
        "GSTIN mismatch, Date mismatch", "GSTIN mismatch, Taxable Value mismatch",
        "Date mismatch, Taxable Value mismatch",
        "GSTIN mismatch, Date mismatch, Taxable Value mismatch"] := by
  intro p hp
  have hemit : sheet5_emit p = true := (List.mem_filter.1 hp).2
  unfold sheet5_emit at hemit
  cases hg : is_gstin_mismatch p <;> cases hd : is_date_mismatch p <;>
    cases ht : is_taxable_value_mismatch p
  · rw [hg, hd, ht] at hemit
    exact absurd hemit (by decide)
  · have hr : mismatch_reason p = "Taxable Value mismatch" := by
      unfold mismatch_reason
      rw [hg, hd, ht]
      rfl
    exact ⟨by decide, by rw [hr]; decide, by rw [hr]; decide⟩
  · have hr : mismatch_reason p = "Date mismatch" := by
      unfold mismatch_reason
      rw [hg, hd, ht]
      rfl
    exact ⟨by decide, by rw [hr]; decide, by rw [hr]; decide⟩
  · have hr : mismatch_reason p = "Date mismatch, Taxable Value mismatch" := by
      unfold mismatch_reason
      rw [hg, hd, ht]
      rfl
    exact ⟨by decide, by rw [hr]; decide, by rw [hr]; decide⟩
  · have hr : mismatch_reason p = "GSTIN mismatch" := by
      unfold mismatch_reason
      rw [hg, hd, ht]
      rfl
    exact ⟨by decide, by rw [hr]; decide, by rw [hr]; decide⟩
  · have hr : mismatch_reason p = "GSTIN mismatch, Taxable Value mismatch" := by
      unfold mismatch_reason
      rw [hg, hd, ht]
      rfl
    exact ⟨by decide, by rw [hr]; decide, by rw [hr]; decide⟩
  · have hr : mismatch_reason p = "GSTIN mismatch, Date mismatch" := by
      unfold mismatch_reason
      rw [hg, hd, ht]
      rfl
    exact ⟨by decide, by rw [hr]; decide, by rw [hr]; decide⟩
  · have hr : mismatch_reason p = "GSTIN mismatch, Date mismatch, Taxable Value mismatch" := by
      unfold mismatch_reason
      rw [hg, hd, ht]
      rfl
    exact ⟨by decide, by rw [hr]; decide, by rw [hr]; decide⟩

/-- Witness for C9 on the GSTIN-mismatch scenario. -/
theorem c9_mismatch_reason_witness :
    (is_gstin_mismatch (exG1, exT3) || is_date_mismatch (exG1, exT3) ||
      is_taxable_value_mismatch (exG1, exT3)) = true ∧
    mismatch_reason (exG1, exT3) ≠ "" ∧
    mismatch_reason (exG1, exT3) ∈ [
      "GSTIN mismatch", "Date mismatch", "Taxable Value mismatch",
      "GSTIN mismatch, Date mismatch", "GSTIN mismatch, Taxable Value mismatch",
      "Date mismatch, Taxable Value mismatch",
      "GSTIN mismatch, Date mismatch, Taxable Value mismatch"] :=
  c9_mismatch_reason [exG1] [exT3] (exG1, exT3) (by decide)

/-! ## Claim C10 -/

/-- C10 counterexample: a pair agreeing on the partial key whose taxable
values differ by 0.005 (nonzero, inside tolerance) — but through sentinel
dates: both date cells are the `NaN` sentinel, whose "nan" rendering makes
the partial keys agree, while the Tier 3 date predicate (NaN != NaN, true
in Python) fires. The pair is emitted in Not Matching, both records are
consumed, and neither "-only" sheet receives them — contradicting the
claim that such a pair fails every Tier 3 predicate and lands in the
"-only" tables. -/
theorem c10_counterexample :
    match_key_value exGn = match_key_value exTn ∧
    exGn.taxable_value ≠ exTn.taxable_value ∧
    tol_lt_absdiff exGn.taxable_value exTn.taxable_value = false ∧
    is_date_mismatch (exGn, exTn) = true ∧
    (exGn, exTn) ∈ sheet5_final [exGn] [exTn] ∧
    sheet2 [exGn] [exTn] = [] ∧ sheet3 [exGn] [exTn] = [] := by decide

/-- C10 amended: for a pair that agrees componentwise on invoice number,
GSTIN and a parseable date (hence on the partial key) and whose taxable
values differ by a nonzero amount at most 0.01: the pair is never emitted
at Tier 2 anywhere, it fails every Tier 3 predicate, and on a run where
the two records have no other partner nothing is consumed and both
records end in their respective "-only" sheets. (With unparseable dates
the Tier 3 date predicate fires instead — see the counterexample.) -/
theorem c10_skipped_pair (r s : Record)
    (hinv : r.invoice_number = s.invoice_number) (hg : r.gstin = s.gstin)
    (hdate : r.invoice_date = s.invoice_date) (hsome : ∃ d, r.invoice_date = some d)
    (hne : r.taxable_value ≠ s.taxable_value)
    (hle : ¬((1:ℚ)/100 < |r.taxable_value - s.taxable_value|)) :
    match_key_value r = match_key_value s ∧
    (∀ g t : List Record, (r, s) ∉ sheet4_data g t) ∧
    sheet5_emit (r, s) = false ∧
    merged_full [r] [s] = [] ∧ sheet4_data [r] [s] = [] ∧
    sheet5_final [r] [s] = [] ∧
    gstr2b_processed_5 [r] [s] = [] ∧ tally_processed_5 [r] [s] = [] ∧
    sheet2 [r] [s] = [r] ∧ sheet3 [r] [s] = [s] := by
  have htol : tol_lt_absdiff r.taxable_value s.taxable_value = false := by
    rw [Bool.eq_false_iff]
    intro hcon
    exact hle ((tol_lt_absdiff_iff _ _).1 hcon)
  have hkeyval : match_key_value r = match_key_value s := by
    unfold match_key_value
    rw [hinv, hg, hdate]
  have hbfull : (match_key_full r == match_key_full s) = false :=
    beq_eq_false_iff_ne.2 (match_key_full_ne_of_taxable_ne hinv hg hdate hne)
  have hemit := sheet5_emit_false_of_agree hg hdate hsome htol
  have hnot4 : ∀ g t : List Record, (r, s) ∉ sheet4_data g t := by
    intro g t hmem
    have := (List.mem_filter.1 hmem).2
    rw [show ((r, s).1 : Record) = r from rfl, show ((r, s).2 : Record) = s from rfl] at this
    rw [htol] at this
    exact absurd this (by decide)
  obtain ⟨e1, _, e5, _, e10, e11, e12, e13, e14⟩ :=
    singleton_run_skip r s hbfull (beq_iff_eq.2 hkeyval) (beq_iff_eq.2 hinv) htol hemit
  exact ⟨hkeyval, hnot4, hemit, e1, e5, e10, e11, e12, e13, e14⟩

/-- The 100 vs 100.005 difference is inside the tolerance. -/
theorem exPair10_within : ¬((1:ℚ)/100 < |exG10.taxable_value - exT10.taxable_value|) := by
  rw [← tol_lt_absdiff_iff]
  decide

/-- Witness for the amended C10 at the concrete 100 / 100.005 pair. -/
theorem c10_skipped_pair_witness :
    match_key_value exG10 = match_key_value exT10 ∧
    (∀ g t : List Record, (exG10, exT10) ∉ sheet4_data g t) ∧
    sheet5_emit (exG10, exT10) = false ∧
    merged_full [exG10] [exT10] = [] ∧ sheet4_data [exG10] [exT10] = [] ∧
    sheet5_final [exG10] [exT10] = [] ∧
    gstr2b_processed_5 [exG10] [exT10] = [] ∧ tally_processed_5 [exG10] [exT10] = [] ∧
    sheet2 [exG10] [exT10] = [exG10] ∧ sheet3 [exG10] [exT10] = [exT10] :=
  c10_skipped_pair exG10 exT10 rfl rfl rfl ⟨"01-01-2024", rfl⟩ (by decide) exPair10_within

end GSTReco
